import Mathlib

/-!
# Verification of the e-commerce order/payment core

A shallow embedding of the order/payment logic of the `ecommerce-api`
repository (Express + Sequelize + Midtrans), together with theorems that
settle the frozen claims about it.

Embedding conventions:
* Database rows become Lean structures; the store (users, products, carts,
  orders) is explicit state threaded through every operation.
* `DECIMAL(10,2)` prices and JS `number` arithmetic are modelled exactly over
  `Rat` (the float rounding error of IEEE doubles is outside the model).
* A Sequelize transaction is modelled as snapshot/rollback: an aborted
  operation returns the original store.  The never-committed transaction that
  `handlePaymentNotification` passes to `rollbackStock` is modelled
  generously, as if its writes commit.
* `JSON.stringify`/`JSON.parse` of the `orderItems` snapshot round-trip, so
  the snapshot is kept structured as a list.
* The SHA-512 hex digest of `verifySignature` is modelled by an uninterpreted
  computable stand-in (`sha512Hex`); no theorem depends on anything beyond
  the digest being a deterministic function of its input.
-/

namespace ECom

/-- Lifecycle status of an order, the `ENUM('pending','completed','failed')`
column of the `orders` table (src/models/Order.ts). -/
inductive OrderStatus where
  | pending
  | completed
  | failed
deriving DecidableEq, Repr

/-- A product row; of the catalog columns only the four attributes the
checkout fetches (`id`, `name`, `price`, `stock`) are modelled.  `price` is
`DECIMAL(10,2)` (exact), `stock` is a signed `INTEGER`. -/
structure Product where
  id : Nat
  name : String
  price : Rat
  stock : Int
deriving DecidableEq, Repr

/-- One entry of the serialized `orderItems` snapshot stored on an order
(`{productId, name, price, quantity}` as pushed by `checkout`). -/
structure OrderItem where
  productId : Nat
  name : String
  price : Rat
  quantity : Nat
deriving DecidableEq, Repr

/-- An `orders` row (src/models/Order.ts). -/
structure OrderRow where
  id : Nat
  userId : Nat
  totalAmount : Rat
  status : OrderStatus
  midtransPaymentId : Option String
  orderItems : List OrderItem
  paymentType : Option String
  transactionTime : Option String
  settlementTime : Option String
deriving DecidableEq, Repr

/-- A `cart_items` row (cartId is kept on the enclosing cart). -/
structure CartLine where
  productId : Nat
  quantity : Nat
deriving DecidableEq, Repr

/-- A `carts` row together with its `cart_items`. -/
structure CartRec where
  id : Nat
  userId : Nat
  items : List CartLine
deriving DecidableEq, Repr

/-- A `users` row, restricted to the fields the order logic reads. -/
structure UserRec where
  id : Nat
  name : String
  email : String
deriving DecidableEq, Repr

/-- The relational store: one authoritative database.  `nextOrderId` models
the auto-increment sequence of `orders.id`. -/
structure Store where
  users : List UserRec
  products : List Product
  carts : List CartRec
  orders : List OrderRow
  nextOrderId : Nat
deriving DecidableEq, Repr

/-- An HTTP response, reduced to the status code and the `message` field of
the JSON body. -/
structure HttpResponse where
  status : Nat
  message : String
deriving DecidableEq, Repr

/-- `Product.findByPk` / the `include`d product of a cart item. -/
def findProduct? (ps : List Product) (pid : Nat) : Option Product :=
  ps.find? (fun p => p.id == pid)

/-- `User.findByPk`. -/
def findUser? (us : List UserRec) (uid : Nat) : Option UserRec :=
  us.find? (fun u => u.id == uid)

/-- `Cart.findOne({where: {userId}})`. -/
def findCart? (cs : List CartRec) (uid : Nat) : Option CartRec :=
  cs.find? (fun c => c.userId == uid)

/-- `Order.findOne({where: {midtransPaymentId: order_id}})`. -/
def findOrderByRef? (os : List OrderRow) (ref : Option String) : Option OrderRow :=
  os.find? (fun o => o.midtransPaymentId == ref)

/-- Saving a mutated order instance: the row with the instance's primary key
is replaced. -/
def updateOrderRow (os : List OrderRow) (o' : OrderRow) : List OrderRow :=
  os.map (fun o => if o.id == o'.id then o' else o)

/-- `product.stock += qty; product.save()` applied to the row(s) with the
given id. -/
def bumpStock (ps : List Product) (pid : Nat) (qty : Nat) : List Product :=
  ps.map (fun p => if p.id == pid then { p with stock := p.stock + (qty : Int) } else p)

/-- The `rollbackStock` helper of the order controller: for each snapshot
item, if the product still exists its stock is incremented by the item's
quantity; a missing product is skipped. -/
def rollbackStock : List OrderItem → List Product → List Product
  | [], ps => ps
  | it :: rest, ps =>
    match findProduct? ps it.productId with
    | some _ => rollbackStock rest (bumpStock ps it.productId it.quantity)
    | none => rollbackStock rest ps

/-- JS truthiness of an optional string field of `req.body` (`undefined`,
`null` and `""` are falsy). -/
def present : Option String → Bool
  | none => false
  | some s => !s.isEmpty

/-- The inbound Midtrans notification body, as destructured by the webhook
middleware and the notification handler. -/
structure WebhookPayload where
  order_id : Option String
  status_code : Option String
  gross_amount : Option String
  signature_key : Option String
  transaction_status : Option String
  fraud_status : Option String
  payment_type : Option String
  transaction_time : Option String
  settlement_time : Option String
deriving DecidableEq, Repr

/-- The status ladder of `handlePaymentNotification`: the new order status is
computed from the notification's `transaction_status`/`fraud_status` alone,
defaulting to `pending` for unrecognized statuses. -/
def computeOrderStatus (ts fs : Option String) : OrderStatus :=
  if ts == some "capture" then
    if fs == some "challenge" then .pending
    else if fs == some "accept" then .completed
    else .pending
  else if ts == some "settlement" then .completed
  else if ts == some "pending" then .pending
  else if ts == some "cancel" || ts == some "deny" || ts == some "expire" then .failed
  else .pending

/-- The `cancel`/`deny`/`expire` branch guard, which is also the (only)
trigger of `rollbackStock`. -/
def isFailureStatus (ts : Option String) : Bool :=
  ts == some "cancel" || ts == some "deny" || ts == some "expire"

/-- The field writes performed on the matched order instance before
`order.save()`: `status` is always overwritten; `paymentType`,
`transactionTime` and `settlementTime` only when the corresponding payload
field is truthy. -/
def applyNotification (p : WebhookPayload) (o : OrderRow) : OrderRow :=
  { o with
    status := computeOrderStatus p.transaction_status p.fraud_status
    paymentType := if present p.payment_type then p.payment_type else o.paymentType
    transactionTime := if present p.transaction_time then p.transaction_time else o.transactionTime
    settlementTime := if present p.settlement_time then p.settlement_time else o.settlementTime }

/-- `handlePaymentNotification` (src orderController): look the order up by
its external reference, recompute the status, release stock on a
cancel/deny/expire status, save the order. -/
def handlePaymentNotification (p : WebhookPayload) (s : Store) : HttpResponse × Store :=
  match findOrderByRef? s.orders p.order_id with
  | none => (⟨404, "Order not found"⟩, s)
  | some o =>
    let products' :=
      if isFailureStatus p.transaction_status then rollbackStock o.orderItems s.products
      else s.products
    (⟨200, "Notification processed successfully"⟩,
      { s with
        products := products'
        orders := updateOrderRow s.orders (applyNotification p o) })

/-- Uninterpreted computable stand-in for the SHA-512 hex digest used by
`verifySignature`; the development relies only on the digest being a
deterministic function of its input. -/
def sha512Hex (s : String) : String :=
  "sha512-" ++ s

/-- `verifySignature` (src/services/midtrans.ts): keyed hash over
`orderId ++ statusCode ++ grossAmount ++ serverKey`, compared with the
payload's `signature_key`. -/
def verifySignature (serverKey orderId statusCode grossAmount signatureKey : String) : Bool :=
  sha512Hex (orderId ++ statusCode ++ grossAmount ++ serverKey) == signatureKey

/-- The presence check of `authenticateWebhook`: all four of `order_id`,
`status_code`, `gross_amount`, `signature_key` must be truthy. -/
def requiredFieldsPresent (p : WebhookPayload) : Bool :=
  present p.order_id && present p.status_code && present p.gross_amount && present p.signature_key

/-- `POST /orders/webhook`: the `authenticateWebhook` middleware followed by
`handlePaymentNotification` (src/routes/orders.ts). -/
def webhookEndpoint (serverKey : String) (p : WebhookPayload) (s : Store) : HttpResponse × Store :=
  if !requiredFieldsPresent p then
    (⟨400, "Missing required webhook fields"⟩, s)
  else if !verifySignature serverKey (p.order_id.getD "") (p.status_code.getD "")
      (p.gross_amount.getD "") (p.signature_key.getD "") then
    (⟨401, "Invalid signature - unauthorized webhook request"⟩, s)
  else
    handlePaymentNotification p s

/-- Stock of the product row with the given id, if any. -/
def stockOf (s : Store) (pid : Nat) : Option Int :=
  (findProduct? s.products pid).map (fun p => p.stock)

/-- Status of the order matched by the given external reference, if any. -/
def statusOf (s : Store) (ref : Option String) : Option OrderStatus :=
  (findOrderByRef? s.orders ref).map (fun o => o.status)

/-- Total quantity the `orderItems` snapshot records for one product id. -/
def itemsQty (items : List OrderItem) (pid : Nat) : Nat :=
  ((items.filter (fun it => it.productId == pid)).map (fun it => it.quantity)).sum

/-! ## Payment gateway client with retry -/

/-- The environment's outcome of one `snap.createTransaction` attempt: either
a token/redirect pair, or an error that is transient (network/timeout/5xx) or
a definitive gateway rejection. -/
inductive GwOutcome where
  | ok (token redirectUrl : String)
  | err (transient : Bool) (message : String)
deriving DecidableEq, Repr

/-- Whether an attempt outcome is a success. -/
def GwOutcome.isOk : GwOutcome → Bool
  | .ok _ _ => true
  | .err _ _ => false

instance exceptDecEq {ε α : Type} [DecidableEq ε] [DecidableEq α] :
    DecidableEq (Except ε α) := fun a b =>
  match a, b with
  | .ok x, .ok y =>
    if h : x = y then .isTrue (by rw [h]) else .isFalse (by intro hh; cases hh; exact h rfl)
  | .error e, .error e' =>
    if h : e = e' then .isTrue (by rw [h]) else .isFalse (by intro hh; cases hh; exact h rfl)
  | .ok _, .error _ => .isFalse (by intro hh; cases hh)
  | .error _, .ok _ => .isFalse (by intro hh; cases hh)

/-- Result of `createTransactionWithRetry` together with its observable
retry behaviour: the number of attempts made and the sleeps performed
between consecutive attempts (milliseconds). -/
structure GwResult where
  result : Except String (String × String)
  attempts : Nat
  delays : List Nat
deriving DecidableEq, Repr

/-- The backoff of the retry loop: `Math.min(1000 * Math.pow(2, i), 5000)`
after the `i`-th (0-based) failed attempt. -/
def backoffDelay (i : Nat) : Nat :=
  min (1000 * 2 ^ i) 5000

/-- The `for (let i = 0; i < maxRetries; i++)` loop of
`createTransactionWithRetry`: every caught error is retried (the error's
kind is never inspected); on the last attempt the error is rethrown.  The
first argument is the number of loop iterations still allowed
(`maxRetries - i`), which makes the recursion structural. -/
def retryLoop (gw : Nat → GwOutcome) (maxRetries : Nat) : Nat → Nat → GwResult
  | 0, i => ⟨.error "Failed to create payment transaction", i, []⟩
  | left + 1, i =>
    match gw i with
    | .ok t u => ⟨.ok (t, u), i + 1, []⟩
    | .err _ m =>
      if i = maxRetries - 1 then
        ⟨.error ("Failed to create payment transaction after " ++ toString maxRetries
            ++ " retries: " ++ m), i + 1, []⟩
      else
        let r := retryLoop gw maxRetries left (i + 1)
        ⟨r.result, r.attempts, backoffDelay i :: r.delays⟩

/-- `createTransactionWithRetry` (src/services/midtrans.ts), abstracted over
the environment's per-attempt outcomes. -/
def createTransactionWithRetry (gw : Nat → GwOutcome) (maxRetries : Nat) : GwResult :=
  retryLoop gw maxRetries maxRetries 0

/-! ## External payment reference -/

/-- Decimal digit to its character, as in JS number-to-string conversion. -/
def decDigitChar (d : Nat) : Char :=
  match d with
  | 0 => '0' | 1 => '1' | 2 => '2' | 3 => '3' | 4 => '4'
  | 5 => '5' | 6 => '6' | 7 => '7' | 8 => '8' | 9 => '9'
  | _ => '*'

/-- Little-endian base-10 digit list of a natural number; the first argument
is fuel making the recursion structural (`decDigits` supplies `n` itself,
which suffices since `n / 10 < n`).  Agrees with `Nat.digits 10`
(`decDigits_eq_digits`). -/
def decDigitsAux : Nat → Nat → List Nat
  | 0, _ => []
  | _ + 1, 0 => []
  | fuel + 1, n + 1 => ((n + 1) % 10) :: decDigitsAux fuel ((n + 1) / 10)

/-- Little-endian base-10 digits of `n`. -/
def decDigits (n : Nat) : List Nat :=
  decDigitsAux n n

/-- Decimal rendering of a natural number (JS `${n}` for a non-negative
integer), as a character list, most significant digit first. -/
def decRepr (n : Nat) : List Char :=
  if n = 0 then ['0'] else ((decDigits n).map decDigitChar).reverse

/-- The external payment reference generated by `checkout`:
`` `ORDER-${Date.now()}-${userId}` ``. -/
def orderRef (now userId : Nat) : String :=
  ⟨"ORDER-".data ++ decRepr now ++ '-' :: decRepr userId⟩

/-! ## Checkout -/

/-- Abort reasons of the per-line loop of `checkout`: an insufficient-stock
check failure (explicit 400 with the product's name), or a cart line whose
joined product is missing, on which the JS loop throws a `TypeError` that the
outer catch turns into a 500. -/
inductive CheckoutAbort where
  | insufficientStock (name : String)
  | missingProduct
deriving DecidableEq, Repr

/-- A Midtrans `item_details` entry (`price` is `Math.round`ed). -/
structure MidtransItem where
  id : String
  price : Int
  quantity : Nat
  name : String
deriving DecidableEq, Repr

/-- Mutable state threaded through the per-line loop of `checkout`:
the in-transaction product table plus the accumulators. -/
structure LoopState where
  products : List Product
  totalAmount : Rat
  orderItems : List OrderItem
  midtransItems : List MidtransItem
deriving DecidableEq, Repr

/-- `Product.update({stock: literal(stock - qty)})` inside the transaction. -/
def decStock (ps : List Product) (pid : Nat) (qty : Nat) : List Product :=
  ps.map (fun p => if p.id == pid then { p with stock := p.stock - (qty : Int) } else p)

/-- The `for (const item of items)` loop of `checkout`.  Each cart line
carries the product snapshot joined at cart-load time; the stock check and
the price read use that snapshot (the in-memory `item.product`), while the
decrement is issued against the live table. -/
def processItems : List (CartLine × Option Product) → LoopState → Except CheckoutAbort LoopState
  | [], st => .ok st
  | (_, none) :: _, _ => .error .missingProduct
  | (l, some p) :: rest, st =>
    if p.stock < (l.quantity : Int) then
      .error (.insufficientStock p.name)
    else
      processItems rest
        { products := decStock st.products p.id l.quantity
          totalAmount := st.totalAmount + p.price * (l.quantity : Rat)
          orderItems := st.orderItems ++ [⟨p.id, p.name, p.price, l.quantity⟩]
          midtransItems := st.midtransItems ++
            [⟨toString p.id, round p.price, l.quantity, p.name⟩] }

/-- `CartItem.destroy({where: {cartId}})`. -/
def clearCart (cs : List CartRec) (cid : Nat) : List CartRec :=
  cs.map (fun c => if c.id == cid then { c with items := [] } else c)

/-- `checkout` (src orderController): one transaction that loads the cart,
reserves stock line by line, creates the pending order with a fresh external
reference, calls the gateway with retry, clears the cart and commits; every
failure path rolls the transaction back (the original store is returned).
`now` is the value of `Date.now()`; `gw` the gateway environment. -/
def checkout (userId : Nat) (now : Nat) (gw : Nat → GwOutcome) (s : Store) :
    HttpResponse × Store :=
  match findUser? s.users userId with
  | none => (⟨404, "User not found"⟩, s)
  | some _ =>
    match findCart? s.carts userId with
    | none => (⟨400, "Cart is empty"⟩, s)
    | some cart =>
      if cart.items.isEmpty then (⟨400, "Cart is empty"⟩, s)
      else
        let loaded := cart.items.map (fun l => (l, findProduct? s.products l.productId))
        match processItems loaded ⟨s.products, 0, [], []⟩ with
        | .error .missingProduct => (⟨500, "Server error during checkout"⟩, s)
        | .error (.insufficientStock n) => (⟨400, "Insufficient stock for " ++ n⟩, s)
        | .ok st =>
          let oid := orderRef now userId
          match (createTransactionWithRetry gw 3).result with
          | .error _ => (⟨500, "Server error during checkout"⟩, s)
          | .ok _ =>
            (⟨201, "Order created successfully"⟩,
              { s with
                products := st.products
                orders := s.orders ++
                  [⟨s.nextOrderId, userId, st.totalAmount, .pending, some oid,
                    st.orderItems, none, none, none⟩]
                carts := clearCart s.carts cart.id
                nextOrderId := s.nextOrderId + 1 })

/-- The per-line join performed by the cart load of `checkout`. -/
def loadedItems (s : Store) (cart : CartRec) : List (CartLine × Option Product) :=
  cart.items.map (fun l => (l, findProduct? s.products l.productId))

/-! ## Storage-fault model of the webhook handler -/

/-- Injectable storage faults for the reconciliation path: the order lookup,
a given product's save inside `rollbackStock`, or the final `order.save()`
can throw. -/
structure StorageFaults where
  findOrderFails : Bool
  productSaveFails : Nat → Bool
  orderSaveFails : Bool

/-- `rollbackStock` under storage faults: the loop stops at the first
failing `product.save`, and the surrounding `try/catch` swallows the error,
so the helper always returns normally with the writes made so far. -/
def rollbackStockF (f : StorageFaults) : List OrderItem → List Product → List Product
  | [], ps => ps
  | it :: rest, ps =>
    match findProduct? ps it.productId with
    | none => rollbackStockF f rest ps
    | some _ =>
      if f.productSaveFails it.productId then ps
      else rollbackStockF f rest (bumpStock ps it.productId it.quantity)

/-- `handlePaymentNotification` under storage faults: a throwing order
lookup or `order.save()` reaches the handler's catch and yields 500; a
throwing `product.save` inside `rollbackStock` is swallowed there. -/
def handlePaymentNotificationF (f : StorageFaults) (p : WebhookPayload) (s : Store) :
    HttpResponse × Store :=
  if f.findOrderFails then (⟨500, "Server error processing notification"⟩, s)
  else
    match findOrderByRef? s.orders p.order_id with
    | none => (⟨404, "Order not found"⟩, s)
    | some o =>
      let products' :=
        if isFailureStatus p.transaction_status then rollbackStockF f o.orderItems s.products
        else s.products
      if f.orderSaveFails then
        (⟨500, "Server error processing notification"⟩, { s with products := products' })
      else
        (⟨200, "Notification processed successfully"⟩,
          { s with
            products := products'
            orders := updateOrderRow s.orders (applyNotification p o) })

/-! ## Auxiliary predicates and concrete scenarios -/

/-- Whether a loaded cart line passes the per-line checks of the checkout
loop: its product was joined and the snapshot stock covers the quantity. -/
def linePasses : CartLine × Option Product → Bool
  | (_, none) => false
  | (l, some p) => if p.stock < (l.quantity : Int) then false else true

/-- The per-line contribution to the checkout total: the snapshot unit price
times the quantity. -/
def lineTotal : CartLine × Option Product → Rat
  | (_, none) => 0
  | (l, some p) => p.price * (l.quantity : Rat)

/-- Rounding of a fixed-point amount to two decimal places. -/
def round2 (q : Rat) : Rat :=
  (round (q * 100) : Rat) / 100

/-- External reference of the most recently created order. -/
def lastOrderRef (s : Store) : Option String :=
  s.orders.getLast?.bind (fun o => o.midtransPaymentId)

/-- Scenario: one product (stock 0 after a checkout reserved 2 units), one
pending order for 2 units of it, awaiting its payment outcome. -/
def exStore : Store :=
  ⟨[⟨7, "u", "u@x"⟩], [⟨1, "Widget", 10, 0⟩], [],
    [⟨1, 7, 20, .pending, some "ORDER-5-7", [⟨1, "Widget", 10, 2⟩], none, none, none⟩], 2⟩

/-- Scenario: a Midtrans `expire` notification for the order of `exStore`. -/
def exExpire : WebhookPayload :=
  ⟨some "ORDER-5-7", some "200", some "20.00", some "sig",
    some "expire", none, none, none, none⟩

/-- Scenario: a pending-class notification for the same reference. -/
def exPendingNotif : WebhookPayload :=
  ⟨some "ORDER-5-7", some "200", some "20.00", some "sig",
    some "pending", none, none, none, none⟩

/-- Scenario: the order of `exStore` already reconciled to `completed`. -/
def exStoreCompleted : Store :=
  ⟨[], [], [], [⟨1, 7, 20, .completed, some "ORDER-5-7", [], none, none, none⟩], 2⟩

/-- Scenario: a user with a two-unit cart line over a product with ample
stock. -/
def exCartStore : Store :=
  ⟨[⟨7, "u", "u@x"⟩], [⟨1, "Widget", 10, 5⟩], [⟨3, 7, [⟨1, 2⟩]⟩], [], 1⟩

/-- Scenario: like `exCartStore` but a one-unit cart line (a different
checkout invocation). -/
def exCartStoreB : Store :=
  ⟨[⟨7, "u", "u@x"⟩], [⟨1, "Widget", 10, 5⟩], [⟨3, 7, [⟨1, 1⟩]⟩], [], 1⟩

/-- Scenario: a cart line whose product no longer exists in the catalog. -/
def exMissingStore : Store :=
  ⟨[⟨7, "u", "u@x"⟩], [], [⟨3, 7, [⟨99, 1⟩]⟩], [], 1⟩

/-- Scenario: a two-line cart; product A has ample stock, product B has too
little for the requested quantity. -/
def exInsuffStore : Store :=
  ⟨[⟨7, "u", "u@x"⟩], [⟨1, "A", 10, 5⟩, ⟨2, "B", 10, 1⟩],
    [⟨3, 7, [⟨1, 2⟩, ⟨2, 3⟩]⟩], [], 1⟩

/-- A gateway environment that succeeds at once. -/
def gwOk : Nat → GwOutcome := fun _ => .ok "tok" "url"

/-- A gateway environment in which every attempt fails transiently. -/
def gwAllFail : Nat → GwOutcome := fun _ => .err true "ETIMEDOUT"

/-- A gateway environment whose first attempt is a definitive rejection and
whose second attempt succeeds. -/
def gwDefinitiveThenOk : Nat → GwOutcome :=
  fun i => if i = 0 then .err false "Invalid transaction request" else .ok "tok" "url"

/-- Storage faults in which exactly the `product.save` of product 1 (inside
`rollbackStock`) throws. -/
def exFaults : StorageFaults :=
  ⟨false, fun pid => pid == 1, false⟩

/-! ## Theorems -/

/-- C1, counterexample: applying the same terminal `expire` notification
twice is not a no-op — the second application releases the order's stock a
second time (stock goes 0 → 2 → 4 for a two-unit snapshot), so the claimed
idempotence fails on the code. -/
theorem c1_counterexample :
    (handlePaymentNotification exExpire (handlePaymentNotification exExpire exStore).2).2
        ≠ (handlePaymentNotification exExpire exStore).2
    ∧ stockOf (handlePaymentNotification exExpire exStore).2 1 = some 2
    ∧ stockOf
        (handlePaymentNotification exExpire
          (handlePaymentNotification exExpire exStore).2).2 1 = some 4 := by
  decide

/-- C2, counterexample: a checkout whose gateway call fails after all
retries responds with status 500 (generic server error), not with the
claimed 502, although the store is indeed fully rolled back. -/
theorem c2_counterexample :
    (checkout 7 1000 gwAllFail exCartStore).1.status = 500
    ∧ (checkout 7 1000 gwAllFail exCartStore).1.status ≠ 502
    ∧ (checkout 7 1000 gwAllFail exCartStore).2 = exCartStore := by
  decide

/-- C3, counterexample: a pending-class notification moves a `completed`
order back to `pending`, so status transitions are not monotonic. -/
theorem c3_counterexample :
    statusOf exStoreCompleted (some "ORDER-5-7") = some OrderStatus.completed
    ∧ statusOf (handlePaymentNotification exPendingNotif exStoreCompleted).2
        (some "ORDER-5-7") = some OrderStatus.pending := by
  decide

/-- C5, counterexample: a cart line whose product no longer exists aborts
the checkout with status 500 and a generic message, not with the claimed 400
naming the offending product (the store is still left unchanged). -/
theorem c5_counterexample :
    (checkout 7 1000 gwOk exMissingStore).1.status = 500
    ∧ (checkout 7 1000 gwOk exMissingStore).1.status ≠ 400
    ∧ (checkout 7 1000 gwOk exMissingStore).1.message = "Server error during checkout"
    ∧ (checkout 7 1000 gwOk exMissingStore).2 = exMissingStore := by
  decide

/-- C6, counterexample: a gateway-reported definitive rejection on the first
attempt is retried anyway (a second attempt is made, after a 1s sleep, and
succeeds), refuting the claim that definitive rejections are not retried. -/
theorem c6_counterexample :
    (createTransactionWithRetry gwDefinitiveThenOk 3).attempts = 2
    ∧ (createTransactionWithRetry gwDefinitiveThenOk 3).result = Except.ok ("tok", "url")
    ∧ (createTransactionWithRetry gwDefinitiveThenOk 3).delays = [1000] := by
  decide

/-- C7, counterexample: a storage failure during the stock release performed
for an `expire` notification is swallowed by `rollbackStock`'s own catch —
the endpoint still responds 200 (and the stock release is lost), refuting
the claim that such failures surface as 500. -/
theorem c7_counterexample :
    (handlePaymentNotificationF exFaults exExpire exStore).1.status = 200
    ∧ (handlePaymentNotificationF exFaults exExpire exStore).1.status ≠ 500
    ∧ stockOf (handlePaymentNotificationF exFaults exExpire exStore).2 1 = some 0
    ∧ statusOf (handlePaymentNotificationF exFaults exExpire exStore).2
        (some "ORDER-5-7") = some OrderStatus.failed := by
  decide

/-- C8, counterexample: two distinct checkout invocations (different carts)
that happen in the same millisecond for the same customer are assigned the
same external payment reference `ORDER-1000-7`, refuting lifetime
uniqueness. -/
theorem c8_counterexample :
    exCartStore ≠ exCartStoreB
    ∧ lastOrderRef (checkout 7 1000 gwOk exCartStore).2 = some "ORDER-1000-7"
    ∧ lastOrderRef (checkout 7 1000 gwOk exCartStoreB).2 = some "ORDER-1000-7" := by
  decide

/-- C4: a webhook payload that carries all required fields but whose
signature differs from the keyed hash recomputed over its order reference,
status code and amount with the shared server key is rejected with 401 and
the store is left untouched, whatever the rest of the payload contains. -/
theorem c4_signature_mismatch (serverKey : String) (p : WebhookPayload) (s : Store)
    (hfields : requiredFieldsPresent p = true)
    (hsig : sha512Hex ((p.order_id.getD "") ++ (p.status_code.getD "")
        ++ (p.gross_amount.getD "") ++ serverKey) ≠ p.signature_key.getD "") :
    webhookEndpoint serverKey p s
      = (⟨401, "Invalid signature - unauthorized webhook request"⟩, s) := by
  have hv : verifySignature serverKey (p.order_id.getD "") (p.status_code.getD "")
      (p.gross_amount.getD "") (p.signature_key.getD "") = false := by
    simpa [verifySignature] using hsig
  simp [webhookEndpoint, hfields, hv]

/-- C4, witness: the mismatch theorem applied to a concrete payload. -/
theorem c4_signature_mismatch_witness :
    webhookEndpoint "KEY" exExpire exStore
      = (⟨401, "Invalid signature - unauthorized webhook request"⟩, exStore) :=
  c4_signature_mismatch "KEY" exExpire exStore (by decide) (by decide)

/-- C7 (amended): a storage failure while looking the order up or while
saving the order row does surface as 500, but a failure inside the stock
release is caught by `rollbackStock` itself, and the endpoint responds 200
as if reconciliation had succeeded. -/
theorem c7_amended (f : StorageFaults) (p : WebhookPayload) (s : Store) :
    (f.findOrderFails = true →
      handlePaymentNotificationF f p s = (⟨500, "Server error processing notification"⟩, s))
    ∧ (f.findOrderFails = false → f.orderSaveFails = true →
        ∀ o, findOrderByRef? s.orders p.order_id = some o →
          (handlePaymentNotificationF f p s).1.status = 500)
    ∧ (f.findOrderFails = false → f.orderSaveFails = false →
        ∀ o, findOrderByRef? s.orders p.order_id = some o →
          (handlePaymentNotificationF f p s).1.status = 200) := by
  refine ⟨fun hf => ?_, fun hf ho o hfind => ?_, fun hf ho o hfind => ?_⟩
  · simp [handlePaymentNotificationF, hf]
  · simp [handlePaymentNotificationF, hf, ho, hfind]
  · simp [handlePaymentNotificationF, hf, ho, hfind]

/-- C7, witness: with only the product save failing, the endpoint still
answers 200. -/
theorem c7_amended_witness :
    (handlePaymentNotificationF exFaults exExpire exStore).1.status = 200 :=
  (c7_amended exFaults exExpire exStore).2.2 (by decide) (by decide)
    (exStore.orders.get ⟨0, by decide⟩) (by decide)

/-! ### Helper lemmas about the webhook handler's store updates -/

/-- `List.find?` commutes with a map that leaves the predicate invariant. -/
theorem find?_map_inv {α : Type} (g : α → α) (q : α → Bool)
    (hq : ∀ x, q (g x) = q x) :
    ∀ l : List α, (l.map g).find? q = (l.find? q).map g := by
  intro l
  induction l with
  | nil => rfl
  | cons x xs ih =>
    cases hx : q x with
    | true =>
      rw [List.map_cons, List.find?_cons_of_pos _ (by rw [hq]; exact hx),
        List.find?_cons_of_pos _ hx]
      rfl
    | false =>
      rw [List.map_cons, List.find?_cons_of_neg _ (by rw [hq, hx]; simp),
        List.find?_cons_of_neg _ (by rw [hx]; simp), ih]

/-- Looking a product up after `bumpStock` returns the looked-up row with its
stock bumped when it is the bumped product, unchanged otherwise. -/
theorem findProduct?_bumpStock (ps : List Product) (pid qty target : Nat) :
    findProduct? (bumpStock ps pid qty) target
      = (findProduct? ps target).map
          (fun p => if p.id == pid then { p with stock := p.stock + (qty : Int) } else p) := by
  unfold findProduct? bumpStock
  apply find?_map_inv
  intro x
  cases hx : x.id == pid <;> simp [hx]

/-- Splitting the snapshot quantity of one product over a cons. -/
theorem itemsQty_cons (it : OrderItem) (rest : List OrderItem) (pid : Nat) :
    itemsQty (it :: rest) pid
      = (if it.productId == pid then it.quantity else 0) + itemsQty rest pid := by
  unfold itemsQty
  cases h : it.productId == pid <;> simp [List.filter_cons, h]

/-- Effect of `rollbackStock` on one product: its stock grows by the total
quantity the snapshot records for it. -/
theorem findProduct?_rollbackStock (items : List OrderItem) (ps : List Product)
    (pid : Nat) (p₀ : Product) (h : findProduct? ps pid = some p₀) :
    findProduct? (rollbackStock items ps) pid
      = some { p₀ with stock := p₀.stock + (itemsQty items pid : Int) } := by
  induction items generalizing ps p₀ with
  | nil =>
    rw [rollbackStock, h]
    cases p₀
    simp [itemsQty]
  | cons it rest ih =>
    have hbeq : (p₀.id == pid) = true := by
      have := List.find?_some h
      simpa using this
    cases hf : findProduct? ps it.productId with
    | none =>
      have hne : (it.productId == pid) = false := by
        cases heq : it.productId == pid
        · rfl
        · have hpe : it.productId = pid := by simpa using heq
          rw [hpe, h] at hf
          cases hf
      rw [rollbackStock, hf, ih ps p₀ h, itemsQty_cons, hne]
      simp
    | some q =>
      rw [rollbackStock, hf]
      cases heq : it.productId == pid with
      | true =>
        have hpe : it.productId = pid := by simpa using heq
        have hi : p₀.id = it.productId := by
          rw [hpe]; simpa using hbeq
        have h' : findProduct? (bumpStock ps it.productId it.quantity) pid
            = some { p₀ with stock := p₀.stock + (it.quantity : Int) } := by
          rw [findProduct?_bumpStock, h]
          simp [hi]
        rw [ih _ _ h', itemsQty_cons, heq]
        simp only [if_pos rfl, Option.some.injEq, Product.mk.injEq, true_and]
        push_cast
        ring
      | false =>
        have hi : ¬ p₀.id = it.productId := by
          have h2 : p₀.id = pid := by simpa using hbeq
          intro h1
          rw [h2] at h1
          rw [← h1] at heq
          simp at heq
        have h' : findProduct? (bumpStock ps it.productId it.quantity) pid = some p₀ := by
          rw [findProduct?_bumpStock, h]
          simp [hi]
        rw [ih _ _ h', itemsQty_cons, heq]
        simp

/-- `updateOrderRow` never changes the list of primary keys. -/
theorem updateOrderRow_map_id (os : List OrderRow) (o' : OrderRow) :
    (updateOrderRow os o').map (fun r => r.id) = os.map (fun r => r.id) := by
  unfold updateOrderRow
  induction os with
  | nil => rfl
  | cons r rest ih =>
    have hhead : (if (r.id == o'.id) = true then o' else r).id = r.id := by
      cases hr : r.id == o'.id
      · simp
      · have h1 : r.id = o'.id := by simpa using hr
        simp [h1]
    simp only [List.map_cons, hhead, ih]

/-- Under unique primary keys, looking up by reference after saving the
matched order returns the saved instance (whose key and reference are those
of the matched order). -/
theorem findOrderByRef?_updateOrderRow (os : List OrderRow) (o o' : OrderRow)
    (ref : Option String)
    (hnd : (os.map (fun r => r.id)).Nodup)
    (hfind : findOrderByRef? os ref = some o)
    (hid : o'.id = o.id) (href : o'.midtransPaymentId = o.midtransPaymentId) :
    findOrderByRef? (updateOrderRow os o') ref = some o' := by
  induction os with
  | nil => simp [findOrderByRef?] at hfind
  | cons r rest ih =>
    unfold findOrderByRef? at hfind ⊢
    unfold updateOrderRow
    rw [List.find?_cons] at hfind
    simp only [List.map_cons]
    rw [List.find?_cons]
    cases hr : r.midtransPaymentId == ref with
    | true =>
      rw [hr] at hfind
      injection hfind with hro
      subst hro
      have hb : (r.id == o'.id) = true := by simp [hid]
      have hp : (o'.midtransPaymentId == ref) = true := by rw [href]; exact hr
      simp only [hb, if_true, hp]
    | false =>
      rw [hr] at hfind
      have hmem : o ∈ rest := List.mem_of_find?_eq_some hfind
      rw [List.map_cons] at hnd
      have hnods := List.nodup_cons.mp hnd
      have hrid : (r.id == o'.id) = false := by
        cases hq : r.id == o'.id
        · rfl
        · exfalso
          have h1 : r.id = o'.id := by simpa using hq
          rw [hid] at h1
          exact hnods.1 (by rw [h1]; exact List.mem_map_of_mem (fun x => x.id) hmem)
      simp only [hrid, if_false, Bool.false_eq_true, hr]
      exact ih hnods.2 hfind

/-- Saving the same instance twice is the same as saving it once. -/
theorem updateOrderRow_twice (os : List OrderRow) (o' : OrderRow) :
    updateOrderRow (updateOrderRow os o') o' = updateOrderRow os o' := by
  unfold updateOrderRow
  induction os with
  | nil => rfl
  | cons r rest ih =>
    simp only [List.map_cons]
    rw [ih]
    cases hr : r.id == o'.id <;> simp [hr]

/-- The notification writes keep the order's primary key. -/
theorem applyNotification_id (p : WebhookPayload) (o : OrderRow) :
    (applyNotification p o).id = o.id := rfl

/-- The notification writes keep the order's external reference. -/
theorem applyNotification_ref (p : WebhookPayload) (o : OrderRow) :
    (applyNotification p o).midtransPaymentId = o.midtransPaymentId := rfl

/-- The notification writes keep the order's snapshot. -/
theorem applyNotification_items (p : WebhookPayload) (o : OrderRow) :
    (applyNotification p o).orderItems = o.orderItems := rfl

/-- Re-applying the same notification's writes changes nothing. -/
theorem applyNotification_idem (p : WebhookPayload) (o : OrderRow) :
    applyNotification p (applyNotification p o) = applyNotification p o := by
  unfold applyNotification
  cases hp : present p.payment_type <;> cases ht : present p.transaction_time <;>
    cases hs : present p.settlement_time <;> simp [hp, ht, hs]

/-- Stores with equal components are equal. -/
theorem storeExt (a b : Store) (h1 : a.users = b.users) (h2 : a.products = b.products)
    (h3 : a.carts = b.carts) (h4 : a.orders = b.orders)
    (h5 : a.nextOrderId = b.nextOrderId) : a = b := by
  cases a
  cases b
  simp_all

/-- Shape of the webhook handler's result when the order is found. -/
theorem handlePaymentNotification_found (p : WebhookPayload) (s : Store) (o : OrderRow)
    (hfound : findOrderByRef? s.orders p.order_id = some o) :
    handlePaymentNotification p s
      = (⟨200, "Notification processed successfully"⟩,
          { s with
            products := if isFailureStatus p.transaction_status
              then rollbackStock o.orderItems s.products
              else s.products
            orders := updateOrderRow s.orders (applyNotification p o) }) := by
  simp [handlePaymentNotification, hfound]

/-- C3 (amended): the webhook handler recomputes the stored status from the
notification alone and overwrites it unconditionally: the resulting status is
`computeOrderStatus` of the payload whatever the order's prior status was, so
terminal states are not sticky and monotonicity fails (see the
counterexample); the only statuses ever written are pending, completed and
failed. -/
theorem c3_amended (p : WebhookPayload) (s : Store) (o : OrderRow)
    (hnd : (s.orders.map (fun r => r.id)).Nodup)
    (hfound : findOrderByRef? s.orders p.order_id = some o) :
    statusOf (handlePaymentNotification p s).2 p.order_id
      = some (computeOrderStatus p.transaction_status p.fraud_status) := by
  have h1 := handlePaymentNotification_found p s o hfound
  have hup := findOrderByRef?_updateOrderRow s.orders o (applyNotification p o)
      p.order_id hnd hfound rfl rfl
  rw [h1]
  simp only [statusOf]
  rw [hup]
  rfl

/-- C3, witness: the amended theorem at the completed-order scenario — a
pending-class notification rewrites the status to pending. -/
theorem c3_amended_witness :
    statusOf (handlePaymentNotification exPendingNotif exStoreCompleted).2 (some "ORDER-5-7")
      = some OrderStatus.pending :=
  (c3_amended exPendingNotif exStoreCompleted
      ⟨1, 7, 20, .completed, some "ORDER-5-7", [], none, none, none⟩
      (by decide) (by decide)).trans (by decide)

/-- C1 (amended): re-applying the same notification yields the same final
order status, and for non-failure statuses the second application is a
complete no-op on the store; but for a cancel/deny/expire notification every
application re-runs the stock release, so applying it twice adds twice the
snapshot quantity to each product's stock — the release side effect is not
idempotent. -/
theorem c1_amended (p : WebhookPayload) (s : Store) (o : OrderRow)
    (hnd : (s.orders.map (fun r => r.id)).Nodup)
    (hfound : findOrderByRef? s.orders p.order_id = some o) :
    statusOf (handlePaymentNotification p (handlePaymentNotification p s).2).2 p.order_id
        = statusOf (handlePaymentNotification p s).2 p.order_id
    ∧ (isFailureStatus p.transaction_status = false →
        (handlePaymentNotification p (handlePaymentNotification p s).2).2
          = (handlePaymentNotification p s).2)
    ∧ (isFailureStatus p.transaction_status = true →
        ∀ pid p₀, findProduct? s.products pid = some p₀ →
          stockOf (handlePaymentNotification p s).2 pid
              = some (p₀.stock + (itemsQty o.orderItems pid : Int))
          ∧ stockOf (handlePaymentNotification p (handlePaymentNotification p s).2).2 pid
              = some (p₀.stock + 2 * (itemsQty o.orderItems pid : Int))) := by
  have h1 := handlePaymentNotification_found p s o hfound
  have hs1orders : ((handlePaymentNotification p s).2).orders
      = updateOrderRow s.orders (applyNotification p o) := by
    rw [h1]
  have hs1users : ((handlePaymentNotification p s).2).users = s.users := by rw [h1]
  have hs1carts : ((handlePaymentNotification p s).2).carts = s.carts := by rw [h1]
  have hs1next : ((handlePaymentNotification p s).2).nextOrderId = s.nextOrderId := by
    rw [h1]
  have hs1products : ((handlePaymentNotification p s).2).products
      = (if isFailureStatus p.transaction_status
          then rollbackStock o.orderItems s.products else s.products) := by
    rw [h1]
  have hfind1 : findOrderByRef? ((handlePaymentNotification p s).2).orders p.order_id
      = some (applyNotification p o) := by
    rw [hs1orders]
    exact findOrderByRef?_updateOrderRow s.orders o (applyNotification p o)
      p.order_id hnd hfound rfl rfl
  have hnd1 : (((handlePaymentNotification p s).2).orders.map (fun r => r.id)).Nodup := by
    rw [hs1orders, updateOrderRow_map_id]
    exact hnd
  have h2 := handlePaymentNotification_found p ((handlePaymentNotification p s).2)
      (applyNotification p o) hfind1
  have hs2orders : ((handlePaymentNotification p (handlePaymentNotification p s).2).2).orders
      = updateOrderRow ((handlePaymentNotification p s).2).orders
          (applyNotification p (applyNotification p o)) := by
    rw [h2]
  have hs2products :
      ((handlePaymentNotification p (handlePaymentNotification p s).2).2).products
      = (if isFailureStatus p.transaction_status
          then rollbackStock (applyNotification p o).orderItems
            ((handlePaymentNotification p s).2).products
          else ((handlePaymentNotification p s).2).products) := by
    rw [h2]
  have hfind2 :
      findOrderByRef? ((handlePaymentNotification p (handlePaymentNotification p s).2).2).orders
          p.order_id = some (applyNotification p (applyNotification p o)) := by
    rw [hs2orders]
    exact findOrderByRef?_updateOrderRow _ (applyNotification p o)
      (applyNotification p (applyNotification p o)) p.order_id hnd1 hfind1 rfl rfl
  refine ⟨?_, ?_, ?_⟩
  · simp only [statusOf]
    rw [hfind1, hfind2, applyNotification_idem]
  · intro hfail
    apply storeExt
    · rw [h2]
    · rw [hs2products, hfail]
      simp
    · rw [h2]
    · rw [hs2orders, applyNotification_idem, hs1orders, updateOrderRow_twice]
    · rw [h2]
  · intro hfail pid p₀ hp
    have hs1p : ((handlePaymentNotification p s).2).products
        = rollbackStock o.orderItems s.products := by
      rw [hs1products, hfail]
      simp
    have hr1 := findProduct?_rollbackStock o.orderItems s.products pid p₀ hp
    constructor
    · simp [stockOf, hs1p, hr1]
    · have hr2 := findProduct?_rollbackStock o.orderItems
        (rollbackStock o.orderItems s.products) pid _ hr1
      simp only [stockOf]
      rw [hs2products, hfail, if_pos rfl, applyNotification_items, hs1p, hr2]
      simp only [Option.map_some', Option.some.injEq]
      ring

/-- C1, witness: the amended theorem at the expire scenario — one
application raises the stock to 2, a second to 4. -/
theorem c1_amended_witness :
    stockOf (handlePaymentNotification exExpire
        (handlePaymentNotification exExpire exStore).2).2 1 = some 4 := by
  have h := ((c1_amended exExpire exStore
      ⟨1, 7, 20, .pending, some "ORDER-5-7", [⟨1, "Widget", 10, 2⟩], none, none, none⟩
      (by decide) (by decide)).2.2 (by decide) 1 ⟨1, "Widget", 10, 0⟩ (by decide)).2
  exact h.trans (by decide)

/-- C10: on an accepted notification whose reference matches an order, the
handler leaves users, carts and the id sequence alone, touches product stock
only on a cancel/deny/expire status, rewrites only the matched order — whose
key, owner, total, snapshot and reference are preserved, whose status becomes
the recomputed one, and whose payment metadata fields are overwritten exactly
when the corresponding payload field is present — and keeps every other
order row unchanged. -/
theorem c10_frame (p : WebhookPayload) (s : Store) (o : OrderRow)
    (hnd : (s.orders.map (fun r => r.id)).Nodup)
    (hfound : findOrderByRef? s.orders p.order_id = some o) :
    (handlePaymentNotification p s).1.status = 200
    ∧ (handlePaymentNotification p s).2.users = s.users
    ∧ (handlePaymentNotification p s).2.carts = s.carts
    ∧ (handlePaymentNotification p s).2.nextOrderId = s.nextOrderId
    ∧ (isFailureStatus p.transaction_status = false →
        (handlePaymentNotification p s).2.products = s.products)
    ∧ (∀ o', findOrderByRef? (handlePaymentNotification p s).2.orders p.order_id = some o' →
        o'.id = o.id ∧ o'.userId = o.userId ∧ o'.totalAmount = o.totalAmount
          ∧ o'.orderItems = o.orderItems ∧ o'.midtransPaymentId = o.midtransPaymentId
          ∧ o'.status = computeOrderStatus p.transaction_status p.fraud_status
          ∧ o'.paymentType = (if present p.payment_type then p.payment_type else o.paymentType)
          ∧ o'.transactionTime
              = (if present p.transaction_time then p.transaction_time else o.transactionTime)
          ∧ o'.settlementTime
              = (if present p.settlement_time then p.settlement_time else o.settlementTime))
    ∧ (handlePaymentNotification p s).2.orders.length = s.orders.length
    ∧ (∀ r ∈ s.orders, r.id ≠ o.id → r ∈ (handlePaymentNotification p s).2.orders) := by
  have h1 := handlePaymentNotification_found p s o hfound
  have hfind1 : findOrderByRef? ((handlePaymentNotification p s).2).orders p.order_id
      = some (applyNotification p o) := by
    rw [h1]
    exact findOrderByRef?_updateOrderRow s.orders o (applyNotification p o)
      p.order_id hnd hfound rfl rfl
  refine ⟨by rw [h1], by rw [h1], by rw [h1], by rw [h1], ?_, ?_, ?_, ?_⟩
  · intro hfail
    rw [h1]
    show (if isFailureStatus p.transaction_status then rollbackStock o.orderItems s.products
        else s.products) = s.products
    rw [hfail]
    simp
  · intro o' ho'
    rw [hfind1] at ho'
    injection ho' with ho''
    subst ho''
    exact ⟨rfl, rfl, rfl, rfl, rfl, rfl, rfl, rfl, rfl⟩
  · rw [h1]
    show (updateOrderRow s.orders (applyNotification p o)).length = s.orders.length
    unfold updateOrderRow
    exact List.length_map s.orders _
  · intro r hr hne
    rw [h1]
    show r ∈ updateOrderRow s.orders (applyNotification p o)
    unfold updateOrderRow
    rw [List.mem_map]
    refine ⟨r, hr, ?_⟩
    show (if (r.id == (applyNotification p o).id) = true
        then applyNotification p o else r) = r
    have hb : (r.id == (applyNotification p o).id) = false := by
      rw [applyNotification_id]
      cases hq : r.id == o.id
      · rfl
      · exact absurd (by simpa using hq) hne
    rw [hb]
    simp

/-- C10, witness: the frame theorem at the expire scenario — carts are
untouched. -/
theorem c10_frame_witness :
    (handlePaymentNotification exExpire exStore).2.carts = exStore.carts :=
  (c10_frame exExpire exStore
      ⟨1, 7, 20, .pending, some "ORDER-5-7", [⟨1, "Widget", 10, 2⟩], none, none, none⟩
      (by decide) (by decide)).2.2.1

/-! ### Checkout and gateway retry -/

/-- When every gateway attempt fails, the retry loop ends in an error, for
any remaining fuel and start index. -/
theorem retryLoop_error (gw : Nat → GwOutcome) (n : Nat)
    (hgw : ∀ i, (gw i).isOk = false) :
    ∀ fuel i, ∃ m, (retryLoop gw n fuel i).result = Except.error m := by
  intro fuel
  induction fuel with
  | zero => intro i; exact ⟨_, rfl⟩
  | succ f ih =>
    intro i
    cases hg : gw i with
    | ok t u =>
      have hh := hgw i
      rw [hg] at hh
      simp [GwOutcome.isOk] at hh
    | err b m =>
      by_cases hl : i = n - 1
      · subst hl
        refine ⟨"Failed to create payment transaction after " ++ toString n
            ++ " retries: " ++ m, ?_⟩
        simp [retryLoop, hg]
      · obtain ⟨m', hm'⟩ := ih (i + 1)
        exact ⟨m', by simp [retryLoop, hg, hl, hm']⟩

/-- Reduction of `checkout` to the outcome of its per-line loop and the
gateway call, given a found user and a non-empty cart. -/
theorem checkout_eq (userId now : Nat) (gw : Nat → GwOutcome) (s : Store)
    (user : UserRec) (cart : CartRec)
    (hu : findUser? s.users userId = some user)
    (hc : findCart? s.carts userId = some cart)
    (hne : cart.items.isEmpty = false) :
    checkout userId now gw s
      = match processItems (loadedItems s cart) ⟨s.products, 0, [], []⟩ with
        | .error .missingProduct => (⟨500, "Server error during checkout"⟩, s)
        | .error (.insufficientStock n) => (⟨400, "Insufficient stock for " ++ n⟩, s)
        | .ok st =>
          match (createTransactionWithRetry gw 3).result with
          | .error _ => (⟨500, "Server error during checkout"⟩, s)
          | .ok _ =>
            (⟨201, "Order created successfully"⟩,
              { s with
                products := st.products
                orders := s.orders ++
                  [⟨s.nextOrderId, userId, st.totalAmount, .pending,
                    some (orderRef now userId), st.orderItems, none, none, none⟩]
                carts := clearCart s.carts cart.id
                nextOrderId := s.nextOrderId + 1 }) := by
  simp only [checkout, hu, hc, hne, loadedItems, Bool.false_eq_true, if_false]

/-- C2 (amended): when the payment-gateway session creation fails at every
attempt, the checkout transaction is rolled back in full — stock, orders and
the customer's cart are exactly as before the attempt — but the customer
receives the generic 500 checkout error, not the claimed 502. -/
theorem c2_amended (userId now : Nat) (gw : Nat → GwOutcome) (s : Store)
    (user : UserRec) (cart : CartRec) (st : LoopState)
    (hu : findUser? s.users userId = some user)
    (hc : findCart? s.carts userId = some cart)
    (hne : cart.items.isEmpty = false)
    (hok : processItems (loadedItems s cart) ⟨s.products, 0, [], []⟩ = Except.ok st)
    (hgw : ∀ i, (gw i).isOk = false) :
    checkout userId now gw s = (⟨500, "Server error during checkout"⟩, s) := by
  obtain ⟨m, hm⟩ := retryLoop_error gw 3 hgw 3 0
  have hm' : (createTransactionWithRetry gw 3).result = Except.error m := hm
  rw [checkout_eq userId now gw s user cart hu hc hne, hok, hm']

/-- C2, witness: the amended theorem at the concrete two-unit cart with a
gateway that always fails. -/
theorem c2_amended_witness :
    checkout 7 1000 gwAllFail exCartStore
      = (⟨500, "Server error during checkout"⟩, exCartStore) :=
  c2_amended 7 1000 gwAllFail exCartStore ⟨7, "u", "u@x"⟩ ⟨3, 7, [⟨1, 2⟩]⟩
    ⟨[⟨1, "Widget", 10, 3⟩], 20, [⟨1, "Widget", 10, 2⟩], [⟨"1", 10, 2, "Widget"⟩]⟩
    (by decide) (by decide) (by decide)
    (by
      have hts : (toString 1 : String) = "1" := rfl
      norm_num [processItems, loadedItems, exCartStore, findProduct?, decStock,
        round_ofNat, hts])
    (fun _ => rfl)

/-- A prefix of passing lines is traversed without aborting: processing
continues into the suffix from some intermediate state. -/
theorem processItems_passing_prefix (l₁ : List (CartLine × Option Product)) :
    ∀ l₂ st, (∀ x ∈ l₁, linePasses x = true) →
      ∃ st', processItems (l₁ ++ l₂) st = processItems l₂ st' := by
  induction l₁ with
  | nil => intro l₂ st _; exact ⟨st, rfl⟩
  | cons x xs ih =>
    intro l₂ st h
    obtain ⟨ln, op⟩ := x
    cases op with
    | none =>
      have hx := h (ln, none) (by simp)
      simp [linePasses] at hx
    | some pr =>
      have hx := h (ln, some pr) (by simp)
      have hlt : ¬ pr.stock < (ln.quantity : Int) := by
        by_contra hcon
        simp [linePasses, hcon] at hx
      obtain ⟨st', hst'⟩ := ih l₂ _ (fun y hy => h y (by simp [hy]))
      refine ⟨st', ?_⟩
      rw [List.cons_append]
      simp only [processItems, if_neg hlt]
      exact hst'

/-- C5 (amended): a line whose snapshot stock is below the requested
quantity aborts the whole checkout with 400 and a message naming the
offending product, and the store (stock, orders, cart) is returned
unchanged; a line whose product no longer exists aborts with the generic 500
server error and no product name, also with the store unchanged.  In neither
case is any line's reservation committed. -/
theorem c5_amended (userId now : Nat) (gw : Nat → GwOutcome) (s : Store)
    (user : UserRec) (cart : CartRec)
    (hu : findUser? s.users userId = some user)
    (hc : findCart? s.carts userId = some cart)
    (hne : cart.items.isEmpty = false) :
    (∀ l₁ ln pr l₂, loadedItems s cart = l₁ ++ (ln, some pr) :: l₂ →
        (∀ x ∈ l₁, linePasses x = true) →
        pr.stock < (ln.quantity : Int) →
        checkout userId now gw s
          = (⟨400, "Insufficient stock for " ++ pr.name⟩, s))
    ∧ (∀ l₁ ln l₂, loadedItems s cart = l₁ ++ (ln, (none : Option Product)) :: l₂ →
        (∀ x ∈ l₁, linePasses x = true) →
        checkout userId now gw s = (⟨500, "Server error during checkout"⟩, s)) := by
  constructor
  · intro l₁ ln pr l₂ hsplit hpass hlt
    obtain ⟨st', hst'⟩ := processItems_passing_prefix l₁ ((ln, some pr) :: l₂)
      ⟨s.products, 0, [], []⟩ hpass
    have habort : processItems (loadedItems s cart) ⟨s.products, 0, [], []⟩
        = Except.error (.insufficientStock pr.name) := by
      rw [hsplit, hst']
      simp [processItems, hlt]
    rw [checkout_eq userId now gw s user cart hu hc hne, habort]
  · intro l₁ ln l₂ hsplit hpass
    obtain ⟨st', hst'⟩ := processItems_passing_prefix l₁ ((ln, none) :: l₂)
      ⟨s.products, 0, [], []⟩ hpass
    have habort : processItems (loadedItems s cart) ⟨s.products, 0, [], []⟩
        = Except.error .missingProduct := by
      rw [hsplit, hst']
      simp [processItems]
    rw [checkout_eq userId now gw s user cart hu hc hne, habort]

/-- C5, witness: a two-line cart whose second line exceeds the stock of
product B aborts with 400 naming B and leaves the store unchanged. -/
theorem c5_amended_witness :
    checkout 7 1000 gwOk exInsuffStore
      = (⟨400, "Insufficient stock for B"⟩, exInsuffStore) :=
  (c5_amended 7 1000 gwOk exInsuffStore ⟨7, "u", "u@x"⟩ ⟨3, 7, [⟨1, 2⟩, ⟨2, 3⟩]⟩
      (by decide) (by decide) (by decide)).1
    [(⟨1, 2⟩, some ⟨1, "A", 10, 5⟩)] ⟨2, 3⟩ ⟨2, "B", 10, 1⟩ []
    (by decide) (by decide) (by decide)

/-- C6 (amended): the retry loop makes at most 3 attempts; it retries after
every failed attempt that is not the last, whether the failure is transient
or a definitive gateway rejection (the error's kind is never consulted); the
sleeps between consecutive attempts follow `min(1000·2^i, 5000)` ms, which
for the 3 attempts made is 1s and then 2s — the 4s step and the 5s ceiling
are never reached; and when every attempt fails the call ends in an error. -/
theorem c6_amended (gw : Nat → GwOutcome) :
    (createTransactionWithRetry gw 3).attempts ≤ 3
    ∧ ((createTransactionWithRetry gw 3).delays = []
        ∨ (createTransactionWithRetry gw 3).delays = [1000]
        ∨ (createTransactionWithRetry gw 3).delays = [1000, 2000])
    ∧ ((gw 0).isOk = false → 2 ≤ (createTransactionWithRetry gw 3).attempts)
    ∧ ((gw 0).isOk = false → (gw 1).isOk = false →
        3 ≤ (createTransactionWithRetry gw 3).attempts)
    ∧ ((∀ i, (gw i).isOk = false) →
        ∃ m, (createTransactionWithRetry gw 3).result = Except.error m) := by
  refine ⟨?_, ?_, ?_, ?_, fun hall => retryLoop_error gw 3 hall 3 0⟩
  all_goals
    rcases h0 : gw 0 with ⟨t0, u0⟩ | ⟨b0, m0⟩ <;>
      rcases h1 : gw 1 with ⟨t1, u1⟩ | ⟨b1, m1⟩ <;>
        rcases h2 : gw 2 with ⟨t2, u2⟩ | ⟨b2, m2⟩ <;>
          norm_num [createTransactionWithRetry, retryLoop, backoffDelay, h0, h1, h2,
            GwOutcome.isOk]

/-- C6, witness: a first-attempt definitive rejection still leads to a
second attempt (2 ≤ attempts). -/
theorem c6_amended_witness :
    2 ≤ (createTransactionWithRetry gwDefinitiveThenOk 3).attempts :=
  (c6_amended gwDefinitiveThenOk).2.2.1 (by decide)

/-- The running total after the per-line loop is the input total plus the
sum of the snapshot line totals. -/
theorem processItems_totalAmount (l : List (CartLine × Option Product)) :
    ∀ st st', processItems l st = Except.ok st' →
      st'.totalAmount = st.totalAmount + (l.map lineTotal).sum := by
  induction l with
  | nil =>
    intro st st' h
    rw [processItems] at h
    injection h with h'
    subst h'
    simp
  | cons x xs ih =>
    intro st st' h
    obtain ⟨ln, op⟩ := x
    cases op with
    | none => simp [processItems] at h
    | some pr =>
      by_cases hlt : pr.stock < (ln.quantity : Int)
      · simp [processItems, hlt] at h
      · simp only [processItems, if_neg hlt] at h
        rw [ih _ _ h]
        simp [lineTotal]
        ring

/-- A 2-decimal price times an integer quantity is already exact to 2
decimals: rounding to 2 decimals is the identity on it. -/
theorem round2_cents_mul (c : Int) (q : Nat) :
    round2 ((c : Rat) / 100 * (q : Rat)) = (c : Rat) / 100 * (q : Rat) := by
  unfold round2
  have h : ((c : Rat) / 100 * (q : Rat)) * 100 = ((c * (q : Int) : Int) : Rat) := by
    push_cast
    ring
  rw [h, round_intCast]
  push_cast
  ring

/-- C9: a checkout that succeeds answers 201 and stores as the order's total
the sum over all cart lines of snapshot unit price times quantity; and when
every joined price is a 2-decimal fixed-point value (as the DECIMAL(10,2)
column guarantees) each line product is exact to 2 decimals, so the total
also equals the sum of the per-line products rounded to 2 decimals. -/
theorem c9_checkout_total (userId now : Nat) (gw : Nat → GwOutcome) (s : Store)
    (user : UserRec) (cart : CartRec) (st : LoopState) (pr : String × String)
    (hu : findUser? s.users userId = some user)
    (hc : findCart? s.carts userId = some cart)
    (hne : cart.items.isEmpty = false)
    (hok : processItems (loadedItems s cart) ⟨s.products, 0, [], []⟩ = Except.ok st)
    (hgw : (createTransactionWithRetry gw 3).result = Except.ok pr) :
    (checkout userId now gw s).1.status = 201
    ∧ ((checkout userId now gw s).2.orders.getLast?).map (fun o => o.totalAmount)
        = some (((loadedItems s cart).map lineTotal).sum)
    ∧ ((∀ x ∈ loadedItems s cart, ∀ q, x.2 = some q →
          ∃ c : Int, q.price = (c : Rat) / 100) →
        ((loadedItems s cart).map lineTotal).sum
          = ((loadedItems s cart).map (fun x => round2 (lineTotal x))).sum) := by
  have hck := checkout_eq userId now gw s user cart hu hc hne
  rw [hok, hgw] at hck
  have hck2 : checkout userId now gw s
      = (⟨201, "Order created successfully"⟩,
          { s with
            products := st.products
            orders := s.orders ++
              [⟨s.nextOrderId, userId, st.totalAmount, .pending,
                some (orderRef now userId), st.orderItems, none, none, none⟩]
            carts := clearCart s.carts cart.id
            nextOrderId := s.nextOrderId + 1 }) := hck
  have htotal : st.totalAmount = ((loadedItems s cart).map lineTotal).sum := by
    have h := processItems_totalAmount (loadedItems s cart) ⟨s.products, 0, [], []⟩ st hok
    simpa using h
  refine ⟨by rw [hck2], ?_, ?_⟩
  · simp only [hck2, List.getLast?_concat]
    simp [htotal]
  · intro hprices
    have hmap : (loadedItems s cart).map lineTotal
        = (loadedItems s cart).map (fun x => round2 (lineTotal x)) := by
      apply List.map_congr_left
      intro x hx
      obtain ⟨ln, op⟩ := x
      cases op with
      | none => simp [lineTotal, round2]
      | some q =>
        obtain ⟨c, hcq⟩ := hprices (ln, some q) hx q rfl
        simp only [lineTotal, hcq]
        exact (round2_cents_mul c ln.quantity).symm
    rw [hmap]

/-- C9, witness: the total theorem at the concrete two-unit cart — the
stored total is the line sum 20. -/
theorem c9_checkout_total_witness :
    ((checkout 7 1000 gwOk exCartStore).2.orders.getLast?).map (fun o => o.totalAmount)
      = some 20 := by
  have h := (c9_checkout_total 7 1000 gwOk exCartStore ⟨7, "u", "u@x"⟩
      ⟨3, 7, [⟨1, 2⟩]⟩
      ⟨[⟨1, "Widget", 10, 3⟩], 20, [⟨1, "Widget", 10, 2⟩], [⟨"1", 10, 2, "Widget"⟩]⟩
      ("tok", "url") (by decide) (by decide) (by decide)
      (by
        have hts : (toString 1 : String) = "1" := rfl
        norm_num [processItems, loadedItems, exCartStore, findProduct?, decStock,
          round_ofNat, hts])
      (by decide)).2.1
  refine h.trans ?_
  have hts : (loadedItems exCartStore ⟨3, 7, [⟨1, 2⟩]⟩).map lineTotal = [20] := by
    norm_num [loadedItems, exCartStore, findProduct?, lineTotal]
  rw [hts]
  norm_num

/-! ### External reference format and (non-)uniqueness -/

/-- The fueled digit extractor agrees with `Nat.digits 10` when given enough
fuel. -/
theorem decDigitsAux_eq_digits :
    ∀ fuel n, n ≤ fuel → decDigitsAux fuel n = Nat.digits 10 n := by
  intro fuel
  induction fuel with
  | zero =>
    intro n hn
    interval_cases n
    rw [Nat.digits_zero]
    rfl
  | succ f ih =>
    intro n hn
    cases n with
    | zero =>
      rw [Nat.digits_zero]
      rfl
    | succ k =>
      show ((k + 1) % 10) :: decDigitsAux f ((k + 1) / 10) = Nat.digits 10 (k + 1)
      rw [Nat.digits_def' (show (1 : Nat) < 10 by norm_num) (Nat.succ_pos k)]
      have hle : (k + 1) / 10 ≤ f := by
        have h1 : (k + 1) / 10 < k + 1 := Nat.div_lt_self (Nat.succ_pos k) (by norm_num)
        omega
      rw [ih _ hle]

/-- The digit list of `decRepr` is exactly `Nat.digits 10`. -/
theorem decDigits_eq_digits (n : Nat) : decDigits n = Nat.digits 10 n :=
  decDigitsAux_eq_digits n n (Nat.le_refl n)

/-- A decimal digit character is never the dash separator. -/
theorem decDigitChar_ne_dash (d : Nat) (hd : d < 10) : decDigitChar d ≠ '-' := by
  interval_cases d <;> decide

/-- Distinct decimal digits render to distinct characters. -/
theorem decDigitChar_inj (d e : Nat) (hd : d < 10) (he : e < 10)
    (h : decDigitChar d = decDigitChar e) : d = e := by
  interval_cases d <;> interval_cases e <;> first | rfl | exact absurd h (by decide)

/-- Digit lists below 10 render injectively to character lists. -/
theorem map_decDigitChar_inj :
    ∀ l₁ l₂ : List Nat, (∀ d ∈ l₁, d < 10) → (∀ d ∈ l₂, d < 10) →
      l₁.map decDigitChar = l₂.map decDigitChar → l₁ = l₂ := by
  intro l₁
  induction l₁ with
  | nil =>
    intro l₂ _ _ h
    cases l₂ with
    | nil => rfl
    | cons e es => simp at h
  | cons d ds ih =>
    intro l₂ h₁ h₂ h
    cases l₂ with
    | nil => simp at h
    | cons e es =>
      simp only [List.map_cons, List.cons.injEq] at h
      have hde : d = e := decDigitChar_inj d e (h₁ d (by simp)) (h₂ e (by simp)) h.1
      rw [hde, ih es (fun x hx => h₁ x (by simp [hx])) (fun x hx => h₂ x (by simp [hx])) h.2]

/-- Only zero renders (over the nonzero branch shape) to the single
character list `['0']`. -/
theorem eq_zero_of_mapchar (n : Nat)
    (h : ((decDigits n).map decDigitChar).reverse = ['0']) : n = 0 := by
  by_contra hn
  have h' : (decDigits n).map decDigitChar = ['0'] := by
    have hr := congrArg List.reverse h
    simpa using hr
  rw [decDigits_eq_digits] at h'
  cases hds : Nat.digits 10 n with
  | nil => rw [hds] at h'; simp at h'
  | cons d ds =>
    rw [hds] at h'
    simp only [List.map_cons, List.cons.injEq] at h'
    obtain ⟨hd0, hds0⟩ := h'
    have hdsnil : ds = [] := by
      cases ds with
      | nil => rfl
      | cons a as => simp at hds0
    have hdlt : d < 10 := Nat.digits_lt_base (by norm_num) (by rw [hds]; simp)
    have hd : d = 0 := decDigitChar_inj d 0 hdlt (by norm_num) (by rw [hd0]; rfl)
    have hnn := Nat.ofDigits_digits 10 n
    rw [hds, hdsnil, hd] at hnn
    simp [Nat.ofDigits] at hnn
    exact hn hnn.symm

/-- Decimal rendering is injective. -/
theorem decRepr_inj (m n : Nat) (h : decRepr m = decRepr n) : m = n := by
  unfold decRepr at h
  by_cases hm : m = 0 <;> by_cases hn : n = 0
  · rw [hm, hn]
  · rw [if_pos hm, if_neg hn] at h
    exact absurd (eq_zero_of_mapchar n h.symm) hn
  · rw [if_neg hm, if_pos hn] at h
    exact absurd (eq_zero_of_mapchar m h) hm
  · rw [if_neg hm, if_neg hn] at h
    have h' : (decDigits m).map decDigitChar = (decDigits n).map decDigitChar := by
      have hr := congrArg List.reverse h
      simpa using hr
    have hm10 : ∀ d ∈ decDigits m, d < 10 := by
      intro d hd
      rw [decDigits_eq_digits] at hd
      exact Nat.digits_lt_base (by norm_num) hd
    have hn10 : ∀ d ∈ decDigits n, d < 10 := by
      intro d hd
      rw [decDigits_eq_digits] at hd
      exact Nat.digits_lt_base (by norm_num) hd
    have hdig := map_decDigitChar_inj _ _ hm10 hn10 h'
    rw [decDigits_eq_digits, decDigits_eq_digits] at hdig
    exact Nat.digits_inj_iff.mp hdig

/-- The dash separator never occurs inside a decimal rendering. -/
theorem dash_not_mem_decRepr (n : Nat) : '-' ∉ decRepr n := by
  unfold decRepr
  by_cases hn : n = 0
  · rw [if_pos hn]
    decide
  · rw [if_neg hn]
    intro hmem
    rw [List.mem_reverse] at hmem
    obtain ⟨d, hd, hc⟩ := List.mem_map.mp hmem
    rw [decDigits_eq_digits] at hd
    exact decDigitChar_ne_dash d (Nat.digits_lt_base (by norm_num) hd) hc

/-- A dash-separated pair of dash-free character lists splits uniquely. -/
theorem append_dash_inj :
    ∀ l₁ l₁' l₂ l₂' : List Char, '-' ∉ l₁ → '-' ∉ l₁' →
      l₁ ++ '-' :: l₂ = l₁' ++ '-' :: l₂' → l₁ = l₁' ∧ l₂ = l₂' := by
  intro l₁
  induction l₁ with
  | nil =>
    intro l₁' l₂ l₂' _ h₁' h
    cases l₁' with
    | nil => simpa using h
    | cons c cs =>
      simp only [List.nil_append, List.cons_append, List.cons.injEq] at h
      have hc : c = '-' := h.1.symm
      exact absurd (by rw [hc]; exact List.mem_cons_self _ _) h₁'
  | cons c cs ih =>
    intro l₁' l₂ l₂' h₁ h₁' h
    cases l₁' with
    | nil =>
      simp only [List.cons_append, List.nil_append, List.cons.injEq] at h
      have hc : c = '-' := h.1
      exact absurd (by rw [hc]; exact List.mem_cons_self _ _) h₁
    | cons c' cs' =>
      simp only [List.cons_append, List.cons.injEq] at h
      obtain ⟨hcc, hrest⟩ := h
      have hsub := ih cs' l₂ l₂' (fun hx => h₁ (by simp [hx])) (fun hx => h₁' (by simp [hx]))
        hrest
      exact ⟨by rw [hcc, hsub.1], hsub.2⟩

/-- The generated reference determines the timestamp and the customer id. -/
theorem orderRef_inj (t u t' u' : Nat) (h : orderRef t u = orderRef t' u') :
    t = t' ∧ u = u' := by
  unfold orderRef at h
  have hdata : "ORDER-".data ++ (decRepr t ++ '-' :: decRepr u)
      = "ORDER-".data ++ (decRepr t' ++ '-' :: decRepr u') := by
    have hc := congrArg String.data h
    simpa using hc
  have h2 := List.append_cancel_left hdata
  obtain ⟨h3, h4⟩ := append_dash_inj (decRepr t) (decRepr t') (decRepr u) (decRepr u')
    (dash_not_mem_decRepr t) (dash_not_mem_decRepr t') h2
  exact ⟨decRepr_inj t t' h3, decRepr_inj u u' h4⟩

/-- C8 (amended): the external payment reference is exactly
`ORDER-<millisecond timestamp>-<customer id>`: two checkout invocations are
assigned the same reference precisely when they share both the millisecond
timestamp and the customer id.  References are therefore distinct across
invocations differing in timestamp or customer, but two checkouts by the
same customer within one millisecond collide (see the counterexample), so
lifetime uniqueness does not hold. -/
theorem c8_amended (t u t' u' : Nat) :
    orderRef t u = orderRef t' u' ↔ t = t' ∧ u = u' := by
  constructor
  · exact orderRef_inj t u t' u'
  · rintro ⟨rfl, rfl⟩
    rfl

/-- C8, witness: the amended theorem separates references generated one
millisecond apart. -/
theorem c8_amended_witness : orderRef 1000 7 ≠ orderRef 1001 7 := by
  intro h
  exact absurd ((c8_amended 1000 7 1001 7).mp h).1 (by decide)

end ECom
